import Mathlib

/-!
Shallow embedding of `src/accessible_games.py`, a small wrapper over the
pygame mixer/display/event subsystems and the external `espeak-NG` speech
synthesizer, together with theorems settling the specification claims.

Modelling conventions:
* the module-level mutable variables `_initialized` and `_process`
  (src lines 47-48) and the pygame mixer channel pool become fields of a
  state record `GState`;
* the environment (whether `shutil.which "espeak-NG"` finds the
  executable, and whether `Popen.terminate()` on a given pid raises)
  becomes an `Env` record;
* subprocess pids are modelled by a fresh-`Nat` counter;
* Python functions that may raise become `Except Err`-valued functions;
  `speak` never raises (its only fallible step is wrapped in a bare
  `try/except`), so it is a total function returning a result record.
-/

set_option autoImplicit false

namespace AccessibleGames

/-- Errors raised by the module. The Python source raises `RuntimeError`
with distinct messages and `ValueError`; the spec names them
AlreadyInitializedError, NotInitializedError, NoChannelAvailableError,
NotPlayingError, ValueError. The sound-decoding failure of
`pygame.mixer.Sound` is `soundLoadError`. -/
inductive Err where
  | alreadyInitialized
  | notInitialized
  | noChannelAvailable
  | notPlaying
  | valueError
  | soundLoadError
  deriving DecidableEq, Repr

/-- One pygame mixer channel. `busy` models `Channel.get_busy()`:
true while a sound is playing on the channel, including while the channel
is paused (SDL_mixer's `Mix_Playing` ignores pause state). `chPaused`
records whether the channel is currently paused. -/
structure Channel where
  busy : Bool
  chPaused : Bool
  deriving DecidableEq, Repr

/-- The process-wide mutable state of the module: `_initialized`
(src line 47), `_process` (src line 48, the pid of the live espeak
subprocess handle or none), a fresh-pid counter for `subprocess.Popen`,
and the pygame mixer channel pool (empty before `pygame.mixer.init`). -/
structure GState where
  initialized : Bool
  process : Option Nat
  nextPid : Nat
  mixer : List Channel
  deriving DecidableEq, Repr

/-- The state at Python process start: `_initialized = False`,
`_process = None`, no mixer channels allocated. -/
def gstate0 : GState :=
  { initialized := false, process := none, nextPid := 0, mixer := [] }

/-- The external environment: the result of
`shutil.which "espeak-NG"` (a path, or `None` when the executable is not
on the search path), and which pids `Popen.terminate()` raises on
(for example because that process already exited). -/
structure Env where
  espeakPath : Option String
  termFails : Nat → Bool

/-- Embedding of `load(channels=16)` (src lines 50-69): raises
`RuntimeError` if `_initialized` is already true; otherwise initializes
pygame, the display and the mixer, sets the number of channels, and sets
`_initialized = True`. A freshly initialized channel is neither busy nor
paused. -/
def load (channels : Nat) (s : GState) : Except Err GState :=
  if s.initialized then .error .alreadyInitialized
  else .ok { s with
              initialized := true
              mixer := List.replicate channels { busy := false, chPaused := false } }

/-- Embedding of the module-level `exit()` (src lines 71-83): raises
`RuntimeError` if `_initialized` is false; otherwise quits the mixer and
pygame (deallocating the channel pool) and sets `_initialized = False`. -/
def exit (s : GState) : Except Err GState :=
  if s.initialized then
    .ok { s with initialized := false, mixer := [] }
  else .error .notInitialized

/-- The observable outcome of one call to `speak(text)`
(src lines 94-114). `retVal` is the returned boolean; `state` the module
state afterwards; `termRequested` the pid whose `terminate()` was
requested (none if the executable was absent or `_process` was `None`);
`caughtTermFailure` records that the bare `except` branch ran (the
`terminate()` attempt raised and was swallowed); `spawnedArgs` the
argument list handed to `subprocess.Popen` (none if nothing was
spawned). -/
structure SpeakResult where
  retVal : Bool
  state : GState
  termRequested : Option Nat
  caughtTermFailure : Bool
  spawnedArgs : Option (List String)
  deriving Repr

/-- Embedding of `speak(text)` (src lines 94-114). The source:

1. `command_path = shutil.which("espeak-NG")`; if `None`, return `False`;
2. otherwise `try: _process.terminate() except: print(...)` — when
   `_process` is `None` the attribute access raises and is caught; when
   it is a handle, `terminate()` may raise (already-exited process) and
   is caught;
3. `_process = subprocess.Popen([command_path, "-s = 200", text])`;
4. return `True`.

Note the source never consults `_initialized` here, and no exception can
escape, so the embedding is a total function. -/
def speak (env : Env) (text : String) (s : GState) : SpeakResult :=
  match env.espeakPath with
  | none =>
      { retVal := false, state := s, termRequested := none
        caughtTermFailure := false, spawnedArgs := none }
  | some command_path =>
      let caught : Bool :=
        match s.process with
        | none => true
        | some p => env.termFails p
      { retVal := true
        state := { s with process := some s.nextPid, nextPid := s.nextPid + 1 }
        termRequested := s.process
        caughtTermFailure := caught
        spawnedArgs := some [command_path, "-s = 200", text] }

/-- Read a channel of the pool; out-of-range access yields an inert
channel. Within the scenarios of the claims every `Player` channel index
is in range of the pool it was drawn from. -/
def getCh (s : GState) (i : Nat) : Channel :=
  s.mixer.getD i { busy := false, chPaused := false }

/-- Embedding of `self.channel.get_busy()`. -/
def get_busy (s : GState) (i : Nat) : Bool :=
  (getCh s i).busy

/-- Update channel `i` of the pool in place (no-op when out of range,
matching `List.set`). -/
def setCh (s : GState) (i : Nat) (f : Channel → Channel) : GState :=
  { s with mixer := s.mixer.set i (f (getCh s i)) }

/-- Scan of the channel pool from index `start`, as
`pygame.mixer.find_channel()` does: first channel that is not busy. -/
def find_channel_aux : Nat → List Channel → Option Nat
  | _, [] => none
  | start, c :: cs =>
      if c.busy then find_channel_aux (start + 1) cs else some start

/-- Embedding of `pygame.mixer.find_channel()`: returns the first
channel that is not busy, or `None` when every channel is busy. It does
not reserve the channel it returns. -/
def find_channel (chs : List Channel) : Option Nat :=
  find_channel_aux 0 chs

/-- One `Player` instance (src lines 147-244): the file path, the
decoded sound buffer's output level (`Sound.set_volume` scale, `1`
as loaded), the index of the channel object returned by `find_channel`
at construction, and the `_paused` flag. -/
structure Player where
  filename : String
  soundVolume : ℚ
  channelIdx : Nat
  paused : Bool
  deriving DecidableEq, Repr

/-- Embedding of `Player.__init__(filename)` (src lines 167-176):
raises `RuntimeError` when `_initialized` is false; then
`pygame.mixer.Sound(filename)` raises when the file is missing or
malformed (`fileValid` models decodability); then
`pygame.mixer.find_channel()` — raises `RuntimeError` when it returns
`None`, i.e. when every channel is busy. Construction stores the channel
object but does not change any mixer state. -/
def Player.init (filename : String) (fileValid : Bool) (s : GState) :
    Except Err (Player × GState) :=
  if s.initialized = false then .error .notInitialized
  else if fileValid = false then .error .soundLoadError
  else
    match find_channel s.mixer with
    | none => .error .noChannelAvailable
    | some i =>
        .ok ({ filename := filename, soundVolume := 1, channelIdx := i
               paused := false }, s)

/-- Embedding of `Player.play()` (src lines 178-191): raises when
`_initialized` is false; if `_paused`, `channel.unpause()`; else
`channel.play(self.sound)` (the channel becomes busy); clears
`_paused`. -/
def Player.play (p : Player) (s : GState) : Except Err (Player × GState) :=
  if s.initialized = false then .error .notInitialized
  else
    let s' :=
      if p.paused then setCh s p.channelIdx (fun c => { c with chPaused := false })
      else setCh s p.channelIdx (fun _ => { busy := true, chPaused := false })
    .ok ({ p with paused := false }, s')

/-- Embedding of `Player.pause()` (src lines 193-203): raises
`RuntimeError` when `self.channel.get_busy()` is false; otherwise
`channel.pause()` and sets `_paused = True`. There is no
`_initialized` check in the source. -/
def Player.pause (p : Player) (s : GState) : Except Err (Player × GState) :=
  if get_busy s p.channelIdx = false then .error .notPlaying
  else .ok ({ p with paused := true },
            setCh s p.channelIdx (fun c => { c with chPaused := true }))

/-- Embedding of `Player.stop()` (src lines 205-215): raises
`RuntimeError` when `self.channel.get_busy()` is false; otherwise
`channel.stop()` (the channel is halted: no longer busy) and sets
`_paused = False`. There is no `_initialized` check in the source. -/
def Player.stop (p : Player) (s : GState) : Except Err (Player × GState) :=
  if get_busy s p.channelIdx = false then .error .notPlaying
  else .ok ({ p with paused := false },
            setCh s p.channelIdx (fun _ => { busy := false, chPaused := false }))

/-- Embedding of `Player.volume(percentage)` (src lines 217-231): raises
`ValueError` unless `0 <= percentage <= 100`; otherwise
`self.sound.set_volume(percentage / 100.0)`. It touches only the sound
object, never the module state. -/
def Player.volume (p : Player) (percentage : ℚ) : Except Err Player :=
  if ¬(0 ≤ percentage ∧ percentage ≤ 100) then .error .valueError
  else .ok { p with soundVolume := percentage / 100 }

/-- Embedding of `Player.__exit__` (src lines 239-244): if
`self.channel.get_busy()` then `self.channel.stop()`. It returns `None`,
so an exception from the block still propagates after the cleanup. -/
def Player.exitScope (p : Player) (s : GState) : GState :=
  if get_busy s p.channelIdx then
    setCh s p.channelIdx (fun _ => { busy := false, chPaused := false })
  else s

/-- A `with Player(...) as p: body` block: the body runs on the state
(possibly raising an error after mutating it: it returns the state it
reached together with an optional error), then `__exit__` runs
unconditionally, and the body's outcome (normal or exceptional) is
propagated unchanged. -/
def withPlayer (p : Player) (body : GState → Option Err × GState)
    (s : GState) : Option Err × GState :=
  let r := body s
  (r.1, p.exitScope r.2)

/-- Load/teardown calls, for claims over sequences of `load()` and
`exit()`. -/
inductive Action where
  | load (channels : Nat)
  | exit
  deriving DecidableEq, Repr

/-- Run a sequence of `load`/`exit` calls, stopping at the first
raised error. -/
def run : List Action → GState → Except Err GState
  | [], s => .ok s
  | a :: rest, s =>
      match (match a with | .load n => load n s | .exit => exit s) with
      | .ok s' => run rest s'
      | .error e => .error e

/-- The strictly alternating sequence load, exit, load, exit, ... with
`k` load/exit pairs. -/
def altSeq (n : Nat) : Nat → List Action
  | 0 => []
  | k + 1 => .load n :: .exit :: altSeq n k

/-- Construct one `Player` per filename in order (all files valid),
threading the state. -/
def constructAll : List String → GState → Except Err (List Player × GState)
  | [], s => .ok ([], s)
  | fn :: rest, s =>
      match Player.init fn true s with
      | .error e => .error e
      | .ok (p, s') =>
          match constructAll rest s' with
          | .error e => .error e
          | .ok (ps, s'') => .ok (p :: ps, s'')

/-- The observable outcome of the quit-event branch inside the polling
loops: the handler returned normally and the loop continues with the
given state; the handler raised; or the OS process was terminated
(which the spec's "abrupt os-level exit path" describes — present in
the semantic domain so the claim is statable, produced by no code
path of the source). -/
inductive QuitOutcome where
  | continueLoop (s : GState)
  | raised (e : Err) (s : GState)
  | osExit
  deriving DecidableEq, Repr

/-- Embedding of the quit-event branch of `pause(seconds,
update_callback)` (src lines 123-125): `pygame.quit()` followed by
`exit()`. Inside the module the name `exit` resolves to the module-level
`exit` function defined at src line 71 (it shadows the builtin), so this
is an ordinary call that returns (or raises `RuntimeError` when
`_initialized` is false); control then falls back into the loop. -/
def handleQuitPause (s : GState) : QuitOutcome :=
  match exit s with
  | .ok s' => .continueLoop s'
  | .error e => .raised e s

/-- Embedding of the quit-event branch of `input()` (src lines 138-140):
textually the same two statements as in `pause`. -/
def handleQuitInput (s : GState) : QuitOutcome :=
  match exit s with
  | .ok s' => .continueLoop s'
  | .error e => .raised e s

/-! ### Concrete states and environments used by witnesses -/

/-- An environment where `shutil.which` finds the executable and no
`terminate()` call fails. -/
def envPresent : Env :=
  { espeakPath := some "/usr/bin/espeak-NG", termFails := fun _ => false }

/-- An environment where the executable is found but every
`terminate()` call raises (the prior process already exited). -/
def envPresentTermRaises : Env :=
  { espeakPath := some "/usr/bin/espeak-NG", termFails := fun _ => true }

/-- An environment where `shutil.which "espeak-NG"` returns `None`. -/
def envAbsent : Env :=
  { espeakPath := none, termFails := fun _ => false }

/-- A sound that was constructed for channel 0 and is not paused. -/
def mkPl (fn : String) : Player :=
  { filename := fn, soundVolume := 1, channelIdx := 0, paused := false }

/-- The state right after `load(4)` from process start. -/
def sLoaded4 : GState :=
  { initialized := true, process := none, nextPid := 0
    mixer := List.replicate 4 { busy := false, chPaused := false } }

/-- The state right after `load(16)` from process start. -/
def sLoaded16 : GState :=
  { initialized := true, process := none, nextPid := 0
    mixer := List.replicate 16 { busy := false, chPaused := false } }

/-- An initialized state with one busy channel. -/
def sBusy1 : GState :=
  { initialized := true, process := none, nextPid := 0
    mixer := [{ busy := true, chPaused := false }] }

/-- An initialized state with one idle channel. -/
def sFree1 : GState :=
  { initialized := true, process := none, nextPid := 0
    mixer := [{ busy := false, chPaused := false }] }

/-- An uninitialized state whose channel 0 is busy (reachable by
`load(1)`, constructing and playing a `Player`, then `exit()` would
clear the pool, so this exact state also stands for any state a stale
`Player` observes; only the `initialized = false` and busy-channel
facts matter to the theorems that use it). -/
def sUninitBusy : GState :=
  { initialized := false, process := none, nextPid := 0
    mixer := [{ busy := true, chPaused := false }] }

/-! ### Auxiliary lemmas -/

theorem list_getD_of_len_le {α : Type} (l : List α) (i : Nat) (d : α)
    (h : l.length ≤ i) : l.getD i d = d := by
  induction l generalizing i with
  | nil => simp
  | cons a as ih =>
    cases i with
    | zero => simp at h
    | succ n => simpa using ih n (by simpa using h)

theorem list_getD_set_self {α : Type} (l : List α) (i : Nat) (c d : α)
    (h : i < l.length) : (l.set i c).getD i d = c := by
  induction l generalizing i with
  | nil => simp at h
  | cons a as ih =>
    cases i with
    | zero => simp
    | succ n => simpa using ih n (by simpa using h)

/-- A busy channel index is in range of the pool (out-of-range reads
yield the inert channel). -/
theorem get_busy_lt (s : GState) (i : Nat) (h : get_busy s i = true) :
    i < s.mixer.length := by
  by_contra hlt
  push_neg at hlt
  rw [get_busy, getCh, list_getD_of_len_le _ _ _ hlt] at h
  simp at h

theorem getCh_setCh_self (s : GState) (i : Nat) (f : Channel → Channel)
    (h : i < s.mixer.length) : getCh (setCh s i f) i = f (getCh s i) := by
  simp only [getCh, setCh]
  exact list_getD_set_self _ _ _ _ h

/-- The `__exit__` handler always leaves the player's channel idle. -/
theorem exitScope_not_busy (p : Player) (s : GState) :
    get_busy (p.exitScope s) p.channelIdx = false := by
  by_cases h : get_busy s p.channelIdx = true
  · have hlt := get_busy_lt s p.channelIdx h
    have hset : p.exitScope s =
        setCh s p.channelIdx (fun _ => { busy := false, chPaused := false }) := by
      simp [Player.exitScope, h]
    rw [hset, get_busy, getCh_setCh_self _ _ _ hlt]
  · have hset : p.exitScope s = s := by
      simp [Player.exitScope, h]
    rw [hset]
    simpa using h

/-- The channel scan returns `none` exactly when every channel is
busy. -/
theorem find_channel_aux_eq_none (start : Nat) (chs : List Channel) :
    find_channel_aux start chs = none ↔ ∀ c ∈ chs, c.busy = true := by
  induction chs generalizing start with
  | nil => simp [find_channel_aux]
  | cons c cs ih =>
    by_cases h : c.busy
    · simp [find_channel_aux, h, ih]
    · simp [find_channel_aux, h]

theorem find_channel_eq_none_iff (chs : List Channel) :
    find_channel chs = none ↔ ∀ c ∈ chs, c.busy = true :=
  find_channel_aux_eq_none 0 chs

/-- The alternating sequence load, exit, ..., run from any state with
`_initialized = False`, raises nothing and ends with
`_initialized = False`. -/
theorem run_altSeq_ok (n : Nat) :
    ∀ (k : Nat) (s : GState), s.initialized = false →
      ∃ s', run (altSeq n k) s = .ok s' ∧ s'.initialized = false := by
  intro k
  induction k with
  | zero => exact fun s h => ⟨s, rfl, h⟩
  | succ m ih =>
    intro s h
    obtain ⟨s', hrun, hinit⟩ := ih { s with initialized := false, mixer := [] } rfl
    refine ⟨s', ?_, hinit⟩
    simpa [altSeq, run, load, exit, h] using hrun

/-! ### Claims -/

/-- C1: for every two consecutive `speak()` calls in which the speech
executable is found, after the second call only the process spawned by
the second call (pid `s.nextPid + 1`) is stored as the active handle —
the first call's process (pid `s.nextPid`) is no longer the handle; the
second call requests termination of the first call's process; a failing
termination request is caught inside `speak` (the embedding is a total
function, so nothing propagates, and when `terminate` raises the
swallowing branch runs); and both calls return `True`. This holds for
every environment, in particular whatever `terminate()` does. -/
theorem c1_speak_consecutive (env : Env) (t1 t2 : String) (s : GState)
    (cp : String) (h : env.espeakPath = some cp) :
    (speak env t1 s).retVal = true ∧
    (speak env t1 s).state.process = some s.nextPid ∧
    (speak env t2 (speak env t1 s).state).retVal = true ∧
    (speak env t2 (speak env t1 s).state).state.process = some (s.nextPid + 1) ∧
    some (s.nextPid + 1) ≠ some s.nextPid ∧
    (speak env t2 (speak env t1 s).state).termRequested = some s.nextPid ∧
    (env.termFails s.nextPid = true →
      (speak env t2 (speak env t1 s).state).caughtTermFailure = true) := by
  simp [speak, h]

/-- Witness for C1 at a concrete environment in which terminating the
first process raises (it already exited): the failure is swallowed, the
second call still returns `True` and only its own pid is stored. -/
theorem c1_speak_consecutive_witness :
    (speak envPresentTermRaises "a" gstate0).retVal = true ∧
    (speak envPresentTermRaises "a" gstate0).state.process = some 0 ∧
    (speak envPresentTermRaises "b"
        (speak envPresentTermRaises "a" gstate0).state).retVal = true ∧
    (speak envPresentTermRaises "b"
        (speak envPresentTermRaises "a" gstate0).state).state.process = some 1 ∧
    some 1 ≠ some 0 ∧
    (speak envPresentTermRaises "b"
        (speak envPresentTermRaises "a" gstate0).state).termRequested = some 0 ∧
    (speak envPresentTermRaises "b"
        (speak envPresentTermRaises "a" gstate0).state).caughtTermFailure = true := by
  have h := c1_speak_consecutive envPresentTermRaises "a" "b" gstate0
    "/usr/bin/espeak-NG" rfl
  exact ⟨h.1, h.2.1, h.2.2.1, h.2.2.2.1, h.2.2.2.2.1, h.2.2.2.2.2.1,
    h.2.2.2.2.2.2 rfl⟩

/-- C2: for every text and state, when `shutil.which` does not find the
executable, `speak` returns `False`, raises nothing (it is a total
function), changes no state (in particular the stored `_process` holds
nothing spawned by this call), requests no termination and spawns
nothing. -/
theorem c2_speak_absent (env : Env) (text : String) (s : GState)
    (h : env.espeakPath = none) :
    speak env text s =
      { retVal := false, state := s, termRequested := none
        caughtTermFailure := false, spawnedArgs := none } := by
  simp [speak, h]

/-- Witness for C2 at the empty-path environment and the start state. -/
theorem c2_speak_absent_witness :
    speak envAbsent "x" gstate0 =
      { retVal := false, state := gstate0, termRequested := none
        caughtTermFailure := false, spawnedArgs := none } :=
  c2_speak_absent envAbsent "x" gstate0 rfl

/-- C3 counterexample: the claim says every speech/playback operation
invoked while `_initialized` is false raises the not-initialized error.
But `speak` never consults `_initialized` (src lines 104-114): at the
uninitialized start state with the executable present it spawns a
process and returns `True` instead of raising. -/
theorem c3_not_all_ops_check_init_cex :
    gstate0.initialized = false ∧
    (speak envPresent "hello" gstate0).retVal = true ∧
    (speak envPresent "hello" gstate0).state.process = some 0 :=
  ⟨rfl, rfl, rfl⟩

/-- C3 amended: only `Player.__init__` and `Player.play` gate on
`_initialized`; `speak` proceeds purely on executable availability, and
`Player.pause`, `Player.stop` and `Player.volume` depend only on the
channel's busy state or the argument, performing their effect even when
`_initialized` is false. -/
theorem c3_init_gating_amended (s : GState) (h : s.initialized = false) :
    (∀ fn fv, Player.init fn fv s = .error .notInitialized) ∧
    (∀ p, Player.play p s = .error .notInitialized) ∧
    (∀ env text, (speak env text s).retVal = env.espeakPath.isSome) ∧
    (∀ p, get_busy s p.channelIdx = true →
      Player.pause p s =
        .ok ({ p with paused := true },
             setCh s p.channelIdx (fun c => { c with chPaused := true })) ∧
      Player.stop p s =
        .ok ({ p with paused := false },
             setCh s p.channelIdx (fun _ => { busy := false, chPaused := false }))) ∧
    (∀ p q, 0 ≤ q → q ≤ 100 →
      Player.volume p q = .ok { p with soundVolume := q / 100 }) := by
  refine ⟨?_, ?_, ?_, ?_, ?_⟩
  · intro fn fv; simp [Player.init, h]
  · intro p; simp [Player.play, h]
  · intro env text
    cases henv : env.espeakPath <;> simp [speak, henv]
  · intro p hbusy
    constructor <;> simp [Player.pause, Player.stop, hbusy]
  · intro p q h0 h100
    simp [Player.volume, h0, h100]

/-- Witness for C3 amended at an uninitialized state with a busy
channel: construction raises, but `stop` succeeds and halts the
channel without any initialization check. -/
theorem c3_init_gating_amended_witness :
    Player.init "f" true sUninitBusy = .error .notInitialized ∧
    Player.stop (mkPl "f") sUninitBusy =
      .ok (mkPl "f",
           setCh sUninitBusy 0 (fun _ => { busy := false, chPaused := false })) ∧
    Player.volume (mkPl "f") 50 = .ok { mkPl "f" with soundVolume := 50 / 100 } := by
  have h := c3_init_gating_amended sUninitBusy rfl
  exact ⟨h.1 "f" true, ((h.2.2.2.1 (mkPl "f")) rfl).2,
    h.2.2.2.2 (mkPl "f") 50 (by norm_num) (by norm_num)⟩

/-- C4: from any state with `_initialized = False`: a `load()` after a
`load()` with no intervening `exit()` raises the already-initialized
error; an `exit()` after an `exit()` raises the not-initialized error,
as does an `exit()` with no prior `load()`; any strictly alternating
sequence load, exit, ..., of any length succeeds; and `_initialized` is
true exactly between a successful `load()` and the next `exit()`. -/
theorem c4_load_exit_sequences (k n m : Nat) (s : GState)
    (h : s.initialized = false) :
    (∃ s', run (altSeq n k) s = .ok s' ∧ s'.initialized = false) ∧
    (∀ s1, load n s = .ok s1 →
      s1.initialized = true ∧
      load m s1 = .error .alreadyInitialized ∧
      ∀ s2, exit s1 = .ok s2 →
        s2.initialized = false ∧ exit s2 = .error .notInitialized) ∧
    (∃ s1, load n s = .ok s1) ∧
    exit s = .error .notInitialized := by
  refine ⟨run_altSeq_ok n k s h, ?_, ?_, ?_⟩
  · intro s1 h1
    simp only [load, h, Bool.false_eq_true, if_false, Except.ok.injEq] at h1
    subst h1
    refine ⟨rfl, by simp [load], ?_⟩
    intro s2 h2
    simp only [exit, if_true, Except.ok.injEq] at h2
    subst h2
    exact ⟨rfl, by simp [exit]⟩
  · exact ⟨{ s with initialized := true, mixer := List.replicate n { busy := false, chPaused := false } }, by simp [load, h]⟩
  · simp [exit, h]

/-- Witness for C4: three alternating pairs from process start succeed
and return to the start state; a second `load` raises; `exit` at process
start raises. -/
theorem c4_load_exit_sequences_witness :
    run (altSeq 16 3) gstate0 = .ok gstate0 ∧
    load 16 sLoaded16 = .error .alreadyInitialized ∧
    exit gstate0 = .error .notInitialized := by
  have h := c4_load_exit_sequences 3 16 16 gstate0 rfl
  exact ⟨rfl, (h.2.1 sLoaded16 rfl).2.1, h.2.2.2⟩

/-- C5 counterexample: after `load(4)`, constructing five Players from
five distinct valid files does NOT make the fifth construction raise:
`find_channel` returns a non-busy channel without reserving it, so with
no playback started all four channels stay idle, each construction
returns the pool unchanged, and the fifth construction (performed in
the state the first four left behind) succeeds. -/
theorem c5_fifth_construction_cex :
    load 4 gstate0 = .ok sLoaded4 ∧
    constructAll ["a", "b", "c", "d"] sLoaded4 =
      .ok ([mkPl "a", mkPl "b", mkPl "c", mkPl "d"], sLoaded4) ∧
    Player.init "e" true sLoaded4 = .ok (mkPl "e", sLoaded4) ∧
    Player.init "e" true sLoaded4 ≠ .error .noChannelAvailable := by
  refine ⟨rfl, rfl, rfl, ?_⟩
  intro hcontra
  rw [show Player.init "e" true sLoaded4 = .ok (mkPl "e", sLoaded4) from rfl]
    at hcontra
  exact Except.noConfusion hcontra

/-- C5 amended: `Player.__init__` raises NoChannelAvailableError exactly
when every channel of the pool is busy at the moment of construction;
when some channel is idle the construction succeeds and returns the
state unchanged (it does not reserve the channel), so after `load(4)`
with no playback started any number of constructions succeed. -/
theorem c5_channel_exhaustion_amended (s : GState) (fn : String)
    (h : s.initialized = true) :
    ((∀ c ∈ s.mixer, c.busy = true) →
      Player.init fn true s = .error .noChannelAvailable) ∧
    ((∃ c ∈ s.mixer, c.busy = false) →
      ∃ pl, Player.init fn true s = .ok (pl, s)) := by
  constructor
  · intro hall
    have hfc : find_channel s.mixer = none :=
      (find_channel_eq_none_iff _).mpr hall
    simp [Player.init, h, hfc]
  · intro hex
    cases hfc2 : find_channel s.mixer with
    | none =>
        rw [find_channel_eq_none_iff] at hfc2
        obtain ⟨c, hc, hb⟩ := hex
        rw [hfc2 c hc] at hb
        exact Bool.noConfusion hb
    | some i =>
        exact ⟨{ filename := fn, soundVolume := 1, channelIdx := i, paused := false },
          by simp [Player.init, h, hfc2]⟩

/-- Witness for C5 amended: one busy channel exhausts a pool of one;
and in the four-idle-channel pool a construction succeeds. -/
theorem c5_channel_exhaustion_amended_witness :
    Player.init "e" true sBusy1 = .error .noChannelAvailable ∧
    (∃ pl, Player.init "e" true sLoaded4 = .ok (pl, sLoaded4)) :=
  ⟨(c5_channel_exhaustion_amended sBusy1 "e" rfl).1 (by decide),
   (c5_channel_exhaustion_amended sLoaded4 "e" rfl).2
     ⟨{ busy := false, chPaused := false }, by decide, rfl⟩⟩

/-- C6: when the player's channel is not busy, `pause()` and `stop()`
raise NotPlayingError; when it is busy, `pause()` suspends the channel
(still busy, now paused) and sets the `_paused` flag, `stop()` halts the
channel and clears the flag, and a second `stop()` right after a
successful one raises NotPlayingError. -/
theorem c6_pause_stop (p : Player) (s : GState) :
    (get_busy s p.channelIdx = false →
      Player.pause p s = .error .notPlaying ∧
      Player.stop p s = .error .notPlaying) ∧
    (get_busy s p.channelIdx = true →
      Player.pause p s =
        .ok ({ p with paused := true },
             setCh s p.channelIdx (fun c => { c with chPaused := true })) ∧
      (getCh (setCh s p.channelIdx (fun c => { c with chPaused := true }))
          p.channelIdx).chPaused = true ∧
      get_busy (setCh s p.channelIdx (fun c => { c with chPaused := true }))
          p.channelIdx = true ∧
      Player.stop p s =
        .ok ({ p with paused := false },
             setCh s p.channelIdx (fun _ => { busy := false, chPaused := false })) ∧
      (∀ p' s', Player.stop p s = .ok (p', s') →
        get_busy s' p'.channelIdx = false ∧
        p'.paused = false ∧
        Player.stop p' s' = .error .notPlaying)) := by
  constructor
  · intro hb
    constructor <;> simp [Player.pause, Player.stop, hb]
  · intro hb
    have hlt := get_busy_lt s p.channelIdx hb
    have hstop : Player.stop p s =
        .ok ({ p with paused := false },
             setCh s p.channelIdx (fun _ => { busy := false, chPaused := false })) := by
      simp [Player.stop, hb]
    have hgb : get_busy
        (setCh s p.channelIdx (fun _ => { busy := false, chPaused := false }))
        p.channelIdx = false := by
      rw [get_busy, getCh_setCh_self _ _ _ hlt]
    refine ⟨by simp [Player.pause, hb], ?_, ?_, hstop, ?_⟩
    · rw [getCh_setCh_self _ _ _ hlt]
    · rw [get_busy, getCh_setCh_self _ _ _ hlt]
      exact hb
    · intro p' s' hok
      rw [hstop] at hok
      injection hok with hpair
      injection hpair with hp hs
      subst hp
      subst hs
      exact ⟨hgb, rfl, by simp [Player.stop, hgb]⟩

/-- Witness for C6 at a one-channel pool: `pause` on the idle channel
raises; `stop` on the busy channel halts it; a second `stop` raises. -/
theorem c6_pause_stop_witness :
    Player.pause (mkPl "f") sFree1 = .error .notPlaying ∧
    Player.stop (mkPl "f") sBusy1 = .ok (mkPl "f", sFree1) ∧
    Player.stop (mkPl "f") sFree1 = .error .notPlaying := by
  have h1 := (c6_pause_stop (mkPl "f") sFree1).1 rfl
  have h2 := (c6_pause_stop (mkPl "f") sBusy1).2 rfl
  exact ⟨h1.1, h2.2.2.2.1, h1.2⟩

/-- C7: `volume(p)` raises ValueError exactly when `p < 0` or
`p > 100`; for `p` in `[0, 100]` it raises nothing and sets the sound's
output level to `p / 100` of the original recorded level, `100` giving
the original level `1`. -/
theorem c7_volume (p : Player) (q : ℚ) :
    (Player.volume p q = .error .valueError ↔ q < 0 ∨ 100 < q) ∧
    (0 ≤ q → q ≤ 100 →
      Player.volume p q = .ok { p with soundVolume := q / 100 }) ∧
    Player.volume p 100 = .ok { p with soundVolume := 1 } := by
  refine ⟨⟨?_, ?_⟩, ?_, ?_⟩
  · intro herr
    by_contra hc
    push_neg at hc
    simp [Player.volume, hc] at herr
  · intro hlt
    have hout : ¬(0 ≤ q ∧ q ≤ 100) := by
      rcases hlt with h1 | h1
      · exact fun hc => absurd hc.1 (not_le.mpr h1)
      · exact fun hc => absurd hc.2 (not_le.mpr h1)
    simp [Player.volume, hout]
  · intro h0 h100
    simp [Player.volume, h0, h100]
  · have h1 : (100 : ℚ) / 100 = 1 := by norm_num
    simp [Player.volume, h1]

/-- Witness for C7: 150 is rejected, 50 scales to one half, 100 restores
the original level. -/
theorem c7_volume_witness :
    Player.volume (mkPl "f") 150 = .error .valueError ∧
    Player.volume (mkPl "f") 50 = .ok { mkPl "f" with soundVolume := 1 / 2 } ∧
    Player.volume (mkPl "f") 100 = .ok { mkPl "f" with soundVolume := 1 } := by
  refine ⟨(c7_volume (mkPl "f") 150).1.mpr (Or.inr (by norm_num)), ?_,
    (c7_volume (mkPl "f") 100).2.2⟩
  have h := (c7_volume (mkPl "f") 50).2.1 (by norm_num) (by norm_num)
  have h2 : (50 : ℚ) / 100 = 1 / 2 := by norm_num
  rw [h, h2]

/-- C8: for every Player used as a scoped resource and every body
(which may mutate the state and end normally or with an exception),
after `__exit__` runs the player's channel is not busy, and the body's
outcome (normal or exceptional) is propagated unchanged. -/
theorem c8_scoped_cleanup (p : Player) (s : GState)
    (body : GState → Option Err × GState) :
    get_busy (withPlayer p body s).2 p.channelIdx = false ∧
    (withPlayer p body s).1 = (body s).1 :=
  ⟨exitScope_not_busy p (body s).2, rfl⟩

/-- C9 counterexample: the claim says a quit event tears the subsystem
down via an abrupt os-level exit path. In the source the statement
`exit()` inside the quit branch resolves to the module-level `exit`
function (src line 71), which returns normally: at a concrete
initialized state the branch yields `continueLoop` (control falls back
into the polling loop), not the os-exit outcome. -/
theorem c9_quit_teardown_cex :
    handleQuitPause sFree1 =
      .continueLoop { initialized := false, process := none, nextPid := 0, mixer := [] } ∧
    handleQuitPause sFree1 ≠ .osExit ∧
    handleQuitInput sFree1 ≠ .osExit := by
  refine ⟨rfl, ?_, ?_⟩ <;> decide

/-- C9 amended: a quit event during `pause()` or `input()` runs
`pygame.quit()` and then calls the module-level `exit()` (the name
shadows the builtin); when `_initialized` is true this tears the mixer
down and sets `_initialized` to false, and control returns to the
polling loop — no os-level exit path is taken; when `_initialized` is
false the call raises the not-initialized error. `input()` applies
exactly the same handling as `pause()`. -/
theorem c9_quit_teardown_amended (s : GState) :
    handleQuitInput s = handleQuitPause s ∧
    handleQuitPause s ≠ .osExit ∧
    (s.initialized = true →
      handleQuitPause s = .continueLoop { s with initialized := false, mixer := [] }) ∧
    (s.initialized = false →
      handleQuitPause s = .raised .notInitialized s) := by
  refine ⟨rfl, ?_, ?_, ?_⟩
  · unfold handleQuitPause exit
    by_cases h : s.initialized <;> simp [h]
  · intro h
    simp [handleQuitPause, exit, h]
  · intro h
    simp [handleQuitPause, exit, h]

/-- Witness for C9 amended at concrete states: the initialized state
continues the loop with `_initialized` cleared; the start state
raises. -/
theorem c9_quit_teardown_amended_witness :
    handleQuitInput sFree1 = handleQuitPause sFree1 ∧
    handleQuitPause sFree1 =
      .continueLoop { initialized := false, process := none, nextPid := 0, mixer := [] } ∧
    handleQuitPause gstate0 = .raised .notInitialized gstate0 := by
  refine ⟨(c9_quit_teardown_amended sFree1).1, ?_,
    (c9_quit_teardown_amended gstate0).2.2.2 rfl⟩
  exact (c9_quit_teardown_amended sFree1).2.2.1 rfl

/-- C10: constructing a Player neither reserves its channel nor marks
it busy: a successful construction returns the module state unchanged,
and while no channel of the (nonempty) pool is busy, any number of
consecutive constructions from valid files all succeed — the
constructor's channel scan only fails when every channel is busy at the
moment of construction. -/
theorem c10_construction_reserves_nothing (s : GState)
    (h : s.initialized = true)
    (hidle : ∀ c ∈ s.mixer, c.busy = false) (hne : s.mixer ≠ []) :
    (∀ fn fv p s', Player.init fn fv s = .ok (p, s') → s' = s) ∧
    (∀ names : List String, ∃ ps, constructAll names s = .ok (ps, s)) := by
  have hfc : ∃ i, find_channel s.mixer = some i := by
    cases hfc2 : find_channel s.mixer with
    | some i => exact ⟨i, rfl⟩
    | none =>
        rw [find_channel_eq_none_iff] at hfc2
        cases hm : s.mixer with
        | nil => exact absurd hm hne
        | cons c cs =>
            have h1 := hidle c (by simp [hm])
            have h2 := hfc2 c (by simp [hm])
            rw [h1] at h2
            exact Bool.noConfusion h2
  obtain ⟨i, hi⟩ := hfc
  constructor
  · intro fn fv p s' hok
    cases fv with
    | false => simp [Player.init, h] at hok
    | true =>
        simp [Player.init, h, hi] at hok
        exact hok.2.symm
  · intro names
    induction names with
    | nil => exact ⟨[], rfl⟩
    | cons fn rest ih =>
        obtain ⟨ps, hps⟩ := ih
        refine ⟨{ filename := fn, soundVolume := 1, channelIdx := i, paused := false } :: ps, ?_⟩
        simp [constructAll, Player.init, h, hi, hps]

/-- Witness for C10: after `load(4)` with no playback started, five
consecutive constructions (then a sixth) all succeed with the state
unchanged. -/
theorem c10_construction_reserves_nothing_witness :
    Player.init "f" true sLoaded4 = .ok (mkPl "f", sLoaded4) ∧
    (∃ ps, constructAll ["a", "b", "c", "d", "e"] sLoaded4 = .ok (ps, sLoaded4)) :=
  ⟨rfl, (c10_construction_reserves_nothing sLoaded4 rfl (by decide) (by decide)).2
    ["a", "b", "c", "d", "e"]⟩

end AccessibleGames
